import Mathlib

/-
Verification of the Supply-Demand GAP analysis core of this repository
(src/sdr_tabs/gap_analysis.py): a shallow embedding of
`calculate_gap_with_carry_forward`, `convert_to_period` and
`get_period_datetime`, followed by theorems settling the specification's
claims about them.

Modelling conventions:
* pandas datetime64 values are `Option Date` (`none` = NaT);
* quantities are `ℚ` (the Python floats, idealised to exact arithmetic);
* a timestamp used as a sort key is an `Int` equal to `2 * toordinal`
  (Python's proleptic-Gregorian `date.toordinal`, ordinal 1 = 0001-01-01)
  for a midnight value; `pd.Timestamp.max` is 2262-04-11T23:47:16.854775807,
  i.e. strictly between 2262-04-11 and 2262-04-12, encoded as
  `2 * toordinal 2262-04-11 + 1`;
* the vectorised pandas expressions of `convert_to_period` are embedded
  element-wise.
-/

/-- A Gregorian calendar date (year, month, day), the date part of a pandas
datetime64 value. -/
structure Date where
  year : Nat
  month : Nat
  day : Nat
deriving DecidableEq, Repr

/-- Gregorian leap-year test. -/
def isLeap (y : Nat) : Bool :=
  y % 4 == 0 && (y % 100 != 0 || y % 400 == 0)

/-- Length of month `m` of year `y` (0 for an invalid month number). -/
def daysInMonth (y m : Nat) : Nat :=
  match m with
  | 1 => 31 | 2 => if isLeap y then 29 else 28 | 3 => 31 | 4 => 30
  | 5 => 31 | 6 => 30 | 7 => 31 | 8 => 31
  | 9 => 30 | 10 => 31 | 11 => 30 | 12 => 31
  | _ => 0

/-- Days of year `y` that precede month `m` (CPython `datetime._days_before_month`). -/
def daysBeforeMonth (y m : Nat) : Nat :=
  (match m with
  | 1 => 0 | 2 => 31 | 3 => 59 | 4 => 90 | 5 => 120 | 6 => 151
  | 7 => 181 | 8 => 212 | 9 => 243 | 10 => 273 | 11 => 304 | 12 => 334
  | _ => 0) + (if 3 ≤ m ∧ isLeap y then 1 else 0)

/-- Days strictly before January 1 of year `y ≥ 1` in the proleptic Gregorian
calendar (CPython `datetime._days_before_year`), so Python's
`date(y, m, d).toordinal()` equals `daysBeforeYear y + daysBeforeMonth y m + d`
and ordinal 1 is 0001-01-01. -/
def daysBeforeYear (y : Nat) : Nat :=
  365 * (y - 1) + (y - 1) / 4 + (y - 1) / 400 - (y - 1) / 100

/-- Python's `date.toordinal()`. -/
def toOrdinal (d : Date) : Nat :=
  daysBeforeYear d.year + daysBeforeMonth d.year d.month + d.day

/-- Python's `date.weekday()`: 0 = Monday; 0001-01-01 (ordinal 1) is a Monday. -/
def weekdayOf (d : Date) : Nat := (toOrdinal d - 1) % 7

/-- One-based day of the year of a date. -/
def dayOfYear (d : Date) : Nat := daysBeforeMonth d.year d.month + d.day

/-- Number of ISO-8601 weeks in ISO year `y`: 53 iff January 1 of `y` falls on a
Thursday, or `y` is a leap year and January 1 falls on a Wednesday; 52
otherwise. The weekday of January 1 of `y` is `daysBeforeYear y % 7`
(0 = Monday). -/
def weeksInISOYear (y : Nat) : Nat :=
  if daysBeforeYear y % 7 = 3 ∨ (isLeap y ∧ daysBeforeYear y % 7 = 2) then 53 else 52

/-- ISO-8601 (week-year, week-number) of a date, as pandas
`Series.dt.isocalendar()` computes it: the week number is
`(10 + dayOfYear - isoWeekday) / 7`, weeks 0 and `weeksInISOYear + 1` spilling
into the neighbouring ISO year. -/
def isoParts (d : Date) : Nat × Nat :=
  let w := (10 + dayOfYear d - (weekdayOf d + 1)) / 7
  if w = 0 then (d.year - 1, weeksInISOYear (d.year - 1))
  else if weeksInISOYear d.year < w then (d.year + 1, 1)
  else (d.year, w)

/-- English month abbreviation of `strftime("%b")` in the C locale. -/
def monthAbbrev (m : Nat) : String :=
  match m with
  | 1 => "Jan" | 2 => "Feb" | 3 => "Mar" | 4 => "Apr" | 5 => "May" | 6 => "Jun"
  | 7 => "Jul" | 8 => "Aug" | 9 => "Sep" | 10 => "Oct" | 11 => "Nov" | 12 => "Dec"
  | _ => ""

/-- Zero-padding to two digits, as in `strftime("%m")` and `strftime("%d")`. -/
def pad2 (n : Nat) : String := if n < 10 then "0" ++ toString n else toString n

/-- Zero-padding to four digits, as in `strftime("%Y")` for the years a pandas
datetime64 can hold (1677..2262, so effectively no padding occurs). -/
def pad4 (n : Nat) : String :=
  if n < 10 then "000" ++ toString n
  else if n < 100 then "00" ++ toString n
  else if n < 1000 then "0" ++ toString n
  else toString n

/-- The three period granularities offered by the tab's selectbox
(`gap_analysis.py` line 214); `convert_to_period`'s dead `else` branch for any
other value of the `period_type` string is therefore not modelled. -/
inductive PeriodType
  | Daily
  | Weekly
  | Monthly
deriving DecidableEq, Repr

/-- Element-wise embedding of `convert_to_period(series, period_type)`:
* Daily: `series.dt.strftime("%Y-%m-%d")`; a NaT entry becomes NaN (modelled
  `none`), which the later `groupby` drops;
* Weekly: `series.dt.isocalendar().week.astype(str).radd("Week ") + " - " +
  series.dt.isocalendar().year.astype(str)`; on a NaT entry `isocalendar`
  yields `<NA>` (nullable UInt32) and `astype(str)` renders it as the literal
  string `"<NA>"`, so the label is the real string `"Week <NA> - <NA>"` — it is
  NOT dropped;
* Monthly: `series.dt.to_period("M").dt.strftime("%b %Y")`; NaT becomes NaN
  (modelled `none`). -/
def convert_to_period (date : Option Date) (g : PeriodType) : Option String :=
  match g, date with
  | PeriodType.Daily, some d =>
      some (pad4 d.year ++ "-" ++ pad2 d.month ++ "-" ++ pad2 d.day)
  | PeriodType.Daily, none => none
  | PeriodType.Weekly, some d =>
      some ("Week " ++ toString (isoParts d).2 ++ " - " ++ toString (isoParts d).1)
  | PeriodType.Weekly, none => some "Week <NA> - <NA>"
  | PeriodType.Monthly, some d =>
      some (monthAbbrev d.month ++ " " ++ pad4 d.year)
  | PeriodType.Monthly, none => none

/-- Value of a list of decimal digit characters. -/
def digitsVal (l : List Char) : Nat := l.foldl (fun n c => 10 * n + (c.toNat - 48)) 0

/-- Nonempty and all decimal digits. -/
def allDigits (l : List Char) : Bool := !l.isEmpty && l.all Char.isDigit

/-- Python `int(str)`: strips surrounding whitespace, then an optional sign
followed by decimal digits. (Python also accepts `_` separators between
digits; no label in this pipeline contains one.) -/
def pyInt (l : List Char) : Option Int :=
  match ((l.dropWhile Char.isWhitespace).reverse.dropWhile Char.isWhitespace).reverse with
  | '-' :: ds => if allDigits ds then some (-(digitsVal ds : Int)) else none
  | '+' :: ds => if allDigits ds then some ((digitsVal ds : Int)) else none
  | ds => if allDigits ds then some ((digitsVal ds : Int)) else none

/-- Fuel-driven worker for `splitChars`; the fuel is an upper bound on the
number of characters still to scan, so `splitChars` below never exhausts it. -/
def splitCharsAux (sep : List Char) : Nat → List Char → List Char → List (List Char)
  | 0, cur, rest => [cur.reverse ++ rest]
  | _ + 1, cur, [] => [cur.reverse]
  | fuel + 1, cur, c :: rest =>
    if List.isPrefixOf sep (c :: rest) then
      cur.reverse :: splitCharsAux sep fuel [] (List.drop sep.length (c :: rest))
    else
      splitCharsAux sep fuel (c :: cur) rest

/-- Python `str.split(sep)` for a nonempty separator: splits at every
non-overlapping occurrence of `sep`, scanning left to right. -/
def splitChars (sep s : List Char) : List (List Char) :=
  splitCharsAux sep (s.length + 1) [] s

/-- Fuel-driven worker for `removeAll`. -/
def removeAllAux (pat : List Char) : Nat → List Char → List Char
  | 0, l => l
  | _ + 1, [] => []
  | fuel + 1, c :: rest =>
    if List.isPrefixOf pat (c :: rest) then
      removeAllAux pat fuel (List.drop pat.length (c :: rest))
    else
      c :: removeAllAux pat fuel rest

/-- Python `str.replace(pat, "")` for a nonempty pattern: removes every
non-overlapping occurrence, scanning left to right. -/
def removeAll (pat s : List Char) : List Char := removeAllAux pat (s.length + 1) s

/-- The try-block of `get_period_datetime`'s Weekly branch before the
`strptime` call:
`week, year = int(period_str.split(" - ")[0].replace("Week ", "")), int(period_str.split(" - ")[1])`.
An IndexError (fewer than two parts) or ValueError (non-numeric) lands in the
`except` clause, i.e. yields `none`. Returns `(year, week)`. -/
def parseWeeklyLabel (s : String) : Option (Int × Int) :=
  match splitChars " - ".toList s.toList with
  | p0 :: p1 :: _ =>
    match pyInt (removeAll "Week ".toList p0), pyInt p1 with
    | some w, some y => some (y, w)
    | _, _ => none
  | _ => none

/-- Ordinal of 9999-12-31, the largest `datetime.date` Python can represent. -/
def maxDatetimeOrdinal : Int := (toOrdinal ⟨9999, 12, 31⟩ : Nat)

/-- `datetime.strptime(f"{year}-W{week}-1", "%Y-W%W-%w")`:
* the `%Y` pattern is exactly four digits, so the int `year` must satisfy
  `1000 ≤ year ≤ 9999`; the `%W` pattern only matches values 0..53;
* with `%W` (weeks starting Monday, days before the first Monday forming
  week 0) and `%w = 1` (Monday, i.e. day-of-week offset 0), CPython's
  `_strptime._calc_julian_from_U_or_W` gives day-of-year
  `julian = 1 + (7 - jan1weekday) % 7 + 7 * (week - 1)` for `week ≥ 1`
  and `julian = 1 - jan1weekday` for `week = 0`, where `jan1weekday` is the
  weekday (0 = Monday) of January 1, and the date is
  `date.fromordinal(toordinal(year,1,1) + julian - 1)` — `julian` may run past
  the end of the year and roll into the next one;
* a resulting ordinal outside `date`'s range raises, landing in the `except`.
The returned timestamp is `2 * ordinal` (midnight). -/
def strptimeYW (y w : Int) : Option Int :=
  if 1000 ≤ y ∧ y ≤ 9999 ∧ 0 ≤ w ∧ w ≤ 53 then
    let fw : Int := (daysBeforeYear y.toNat % 7 : Nat)
    let julian : Int := if w = 0 then 1 - fw else 1 + (7 - fw) % 7 + 7 * (w - 1)
    let ordRes : Int := (daysBeforeYear y.toNat : Nat) + julian
    if 1 ≤ ordRes ∧ ordRes ≤ maxDatetimeOrdinal then some (2 * ordRes) else none
  else none

/-- The whole try-block of the Weekly branch of `get_period_datetime`. -/
def attemptWeekly (s : String) : Option Int :=
  (parseWeeklyLabel s).bind fun yw => strptimeYW yw.1 yw.2

/-- Month number from a three-letter abbreviation; `strptime`'s `%b` is
case-insensitive. -/
def monthFromChars (l : List Char) : Option Nat :=
  let s := String.mk (l.map Char.toLower)
  if s = "jan" then some 1 else if s = "feb" then some 2
  else if s = "mar" then some 3 else if s = "apr" then some 4
  else if s = "may" then some 5 else if s = "jun" then some 6
  else if s = "jul" then some 7 else if s = "aug" then some 8
  else if s = "sep" then some 9 else if s = "oct" then some 10
  else if s = "nov" then some 11 else if s = "dec" then some 12
  else none

/-- Earliest date a pandas datetime64[ns] can hold (`pd.Timestamp.min` is
1677-09-21T00:12:43.145224193, so the earliest representable midnight date is
1677-09-22, and `pd.to_datetime` of 1677-09-21 or earlier raises
OutOfBoundsDatetime). -/
def pdMinDate : Date := ⟨1677, 9, 21⟩

/-- Date part of `pd.Timestamp.max` (2262-04-11T23:47:16.854775807). -/
def pdMaxDate : Date := ⟨2262, 4, 11⟩

/-- Strict date comparison by components. -/
def dateLtB (d1 d2 : Date) : Bool :=
  d1.year < d2.year
    || (d1.year == d2.year
        && (d1.month < d2.month || (d1.month == d2.month && d1.day < d2.day)))

/-- `pd.to_datetime` applied to an exact calendar date `d`: raises
OutOfBoundsDatetime (→ the `except` clause) outside the datetime64[ns] range;
otherwise yields the midnight timestamp `2 * toordinal d`. -/
def pdTimestampOf (d : Date) : Option Int :=
  if dateLtB pdMinDate d && (dateLtB d pdMaxDate || d == pdMaxDate) then
    some (2 * (toOrdinal d : Int))
  else none

/-- The try-block of the Monthly branch:
`pd.to_datetime("01 " + period_str, format="%d %b %Y")`. After the literal
`"01 "` and the whitespace separator, `%b` must match a three-letter month
abbreviation (case-insensitively), then at least one whitespace character,
then `%Y` = exactly four digits, then end of string. -/
def parseMonthlyLabel (s : String) : Option (Nat × Nat) :=
  let t1 := s.toList.dropWhile Char.isWhitespace
  match monthFromChars (t1.take 3) with
  | none => none
  | some m =>
    match t1.drop 3 with
    | [] => none
    | c :: cs =>
      if c.isWhitespace then
        let ys := cs.dropWhile Char.isWhitespace
        if ys.length = 4 && allDigits ys then some (digitsVal ys, m) else none
      else none

/-- The whole try-block of the Monthly branch of `get_period_datetime`. -/
def attemptMonthly (s : String) : Option Int :=
  (parseMonthlyLabel s).bind fun ym => pdTimestampOf ⟨ym.1, ym.2, 1⟩

/-- The try-block of the Daily branch:
`pd.to_datetime(period_str, format="%Y-%m-%d")`. `%Y` is exactly four digits,
`%m` and `%d` are one or two digits with values 1..12 and 1..31; the assembled
date must exist in the calendar and lie in the datetime64[ns] range. -/
def parseDailyLabel (s : String) : Option Date :=
  match splitChars ['-'] s.toList with
  | [ys, ms, ds] =>
    if ys.length = 4 && allDigits ys
        && 1 ≤ ms.length && ms.length ≤ 2 && allDigits ms
        && 1 ≤ ds.length && ds.length ≤ 2 && allDigits ds then
      let y := digitsVal ys
      let m := digitsVal ms
      let d := digitsVal ds
      if 1 ≤ m && m ≤ 12 && 1 ≤ d && d ≤ daysInMonth y m then some ⟨y, m, d⟩
      else none
    else none
  | _ => none

/-- The whole try-block of the Daily branch of `get_period_datetime`. -/
def attemptDaily (s : String) : Option Int := (parseDailyLabel s).bind pdTimestampOf

/-- Timestamp encoding of `pd.Timestamp.max`: strictly between midnight
2262-04-11 and midnight 2262-04-12. -/
def pdTimestampMax : Int := 2 * (toOrdinal pdMaxDate : Int) + 1

/-- The try-block of `get_period_datetime` for each granularity: `some` is a
successful parse, `none` means the Python code raised inside the `try`. -/
def get_period_datetime_attempt (s : String) (g : PeriodType) : Option Int :=
  match g with
  | PeriodType.Weekly => attemptWeekly s
  | PeriodType.Monthly => attemptMonthly s
  | PeriodType.Daily => attemptDaily s

/-- `get_period_datetime(period_str, period_type)`: each granularity branch
wraps its parse in `try: ... except: return pd.Timestamp.max`, so the function
always returns a timestamp. -/
def get_period_datetime (s : String) (g : PeriodType) : Int :=
  (get_period_datetime_attempt s g).getD pdTimestampMax

/-- A demand row after the caller-side filters: the composite product key
columns, the `etd` date and the `demand_quantity`. -/
structure DemandRecord where
  pt_code : String
  product_name : String
  package_size : String
  standard_uom : String
  etd : Option Date
  demand_quantity : ℚ
deriving DecidableEq, Repr

/-- A supply row: the composite product key columns, the `date_ref` reference
date and the `quantity`. -/
structure SupplyRecord where
  pt_code : String
  product_name : String
  package_size : String
  standard_uom : String
  date_ref : Option Date
  quantity : ℚ
deriving DecidableEq, Repr

/-- The composite product identity (pt_code, product_name, package_size,
standard_uom) used for `all_keys`. -/
structure ProductKey where
  pt_code : String
  product_name : String
  package_size : String
  standard_uom : String
deriving DecidableEq, Repr

/-- One output row of `calculate_gap_with_carry_forward`, with exactly the
fields of the dict appended at lines 120-133 of gap_analysis.py. -/
structure GapRow where
  pt_code : String
  product_name : String
  package_size : String
  standard_uom : String
  period : String
  begin_inventory : ℚ
  supply_in_period : ℚ
  total_available : ℚ
  total_demand_qty : ℚ
  gap_quantity : ℚ
  fulfillment_rate_percent : ℚ
  fulfillment_status : String
deriving DecidableEq, Repr

def demandKey (r : DemandRecord) : ProductKey :=
  ⟨r.pt_code, r.product_name, r.package_size, r.standard_uom⟩

def supplyKey (r : SupplyRecord) : ProductKey :=
  ⟨r.pt_code, r.product_name, r.package_size, r.standard_uom⟩

def rowKey (r : GapRow) : ProductKey :=
  ⟨r.pt_code, r.product_name, r.package_size, r.standard_uom⟩

/-- The inner-loop demand lookup
`demand_grouped[(demand_grouped["pt_code"] == pt_code) & (demand_grouped["period"] == period)]["total_demand_qty"].sum()`:
`demand_grouped` groups by the full key plus period and sums
`demand_quantity`; rows whose period is NaN are dropped by `groupby`; the
lookup then filters by `pt_code` and `period` only (NOT the whole composite
key) and sums the group sums, which equals summing `demand_quantity` over all
records with that `pt_code` whose date buckets to that period. -/
def demandSum (dem : List DemandRecord) (pt p : String) (g : PeriodType) : ℚ :=
  ((dem.filter fun r => r.pt_code == pt && convert_to_period r.etd g == some p).map
    fun r => r.demand_quantity).sum

/-- Supply counterpart of `demandSum`, over `quantity` and `date_ref`. -/
def supplySum (sup : List SupplyRecord) (pt p : String) (g : PeriodType) : ℚ :=
  ((sup.filter fun r => r.pt_code == pt && convert_to_period r.date_ref g == some p).map
    fun r => r.quantity).sum

/-- The periods occurring in `demand_grouped["period"]`: every bucketed (non-NaN)
period of a demand record. -/
def periodsOfDemand (dem : List DemandRecord) (g : PeriodType) : List String :=
  dem.filterMap fun r => convert_to_period r.etd g

/-- The periods occurring in `supply_grouped["period"]`. -/
def periodsOfSupply (sup : List SupplyRecord) (g : PeriodType) : List String :=
  sup.filterMap fun r => convert_to_period r.date_ref g

/-- `all_periods_raw = list(set(demand_grouped["period"]).union(set(supply_grouped["period"])))`:
the distinct periods of either aggregate. Python's set iteration order is
unspecified; `dedup` fixes one order, and no claim depends on it. -/
def allPeriodsRaw (dem : List DemandRecord) (sup : List SupplyRecord) (g : PeriodType) :
    List String :=
  (periodsOfDemand dem g ++ periodsOfSupply sup g).dedup

/-- The comparison `sorted(..., key=lambda x: get_period_datetime(x, period_type))`
sorts by. -/
def periodLE (g : PeriodType) (a b : String) : Prop :=
  get_period_datetime a g ≤ get_period_datetime b g

instance periodLEDec (g : PeriodType) : DecidableRel (periodLE g) := fun a b =>
  inferInstanceAs (Decidable (get_period_datetime a g ≤ get_period_datetime b g))

/-- `all_periods = sorted(all_periods_raw, key=lambda x: get_period_datetime(x, period_type))`.
Python's sort is stable; ties in the key are broken by the (unspecified) set
order either way, and no claim depends on tie order. -/
def sortPeriods (g : PeriodType) (l : List String) : List String :=
  List.insertionSort (periodLE g) l

/-- `all_keys = pd.concat([demand_grouped[keycols], supply_grouped[keycols]]).drop_duplicates()`:
the distinct composite keys of either aggregate. A record whose period is NaN
was already dropped by `groupby`, hence the `.map` through the bucketed period.
pandas iterates keys in `groupby`'s sorted order; `dedup` fixes one order, and
no claim depends on the order across products. -/
def allKeys (dem : List DemandRecord) (sup : List SupplyRecord) (g : PeriodType) :
    List ProductKey :=
  ((dem.filterMap fun r => (convert_to_period r.etd g).map fun _ => demandKey r) ++
    (sup.filterMap fun r => (convert_to_period r.date_ref g).map fun _ => supplyKey r)).dedup

/-- The inner `for period in all_periods` loop of
`calculate_gap_with_carry_forward` for one product key, carrying
`carry_forward_qty` (the second argument) across iterations:
```
total_available = carry_forward_qty + supply
gap = total_available - demand
fulfill_rate = (total_available / demand * 100) if demand > 0 else 100
status = "✅ Fullfilled" if gap >= 0 else "❌ Shortage"
results.append({...})
carry_forward_qty = max(0, gap)
``` -/
def gapRowsAux (dem : List DemandRecord) (sup : List SupplyRecord) (g : PeriodType)
    (k : ProductKey) : List String → ℚ → List GapRow
  | [], _ => []
  | p :: rest, carry =>
    let demand := demandSum dem k.pt_code p g
    let supply := supplySum sup k.pt_code p g
    let total_available := carry + supply
    let gap := total_available - demand
    let rate := if 0 < demand then total_available / demand * 100 else 100
    let status := if 0 ≤ gap then "✅ Fullfilled" else "❌ Shortage"
    ⟨k.pt_code, k.product_name, k.package_size, k.standard_uom, p,
      carry, supply, total_available, demand, gap, rate, status⟩ ::
      gapRowsAux dem sup g k rest (max 0 gap)

/-- `calculate_gap_with_carry_forward(df_demand, df_supply, period_type)`:
for each distinct product key, scan the shared sorted period axis with
`carry_forward_qty` starting at 0, appending one row per period. -/
def calculate_gap_with_carry_forward (dem : List DemandRecord) (sup : List SupplyRecord)
    (g : PeriodType) : List GapRow :=
  let all_periods := sortPeriods g (allPeriodsRaw dem sup g)
  (allKeys dem sup g).flatMap fun k => gapRowsAux dem sup g k all_periods 0

/-- Concrete demand snapshot used by the witnesses: the specification's own
Weekly test scenario (100 then 50 units of demand). 2025-01-06 is ISO week 2
of 2025 and 2025-01-13 is ISO week 3. -/
def sampleDemand : List DemandRecord :=
  [⟨"P1", "N", "S", "U", some ⟨2025, 1, 6⟩, 100⟩,
   ⟨"P1", "N", "S", "U", some ⟨2025, 1, 13⟩, 50⟩]

/-- Concrete supply snapshot used by the witnesses (80 then 90 units). -/
def sampleSupply : List SupplyRecord :=
  [⟨"P1", "N", "S", "U", some ⟨2025, 1, 6⟩, 80⟩,
   ⟨"P1", "N", "S", "U", some ⟨2025, 1, 13⟩, 90⟩]

/-- A demand snapshot whose single record has a null (NaT) `etd`. -/
def nullEtdDemand : List DemandRecord := [⟨"P1", "N", "S", "U", none, 5⟩]

instance periodLETotal (g : PeriodType) : IsTotal String (periodLE g) :=
  ⟨fun a b => le_total (get_period_datetime a g) (get_period_datetime b g)⟩

instance periodLETrans (g : PeriodType) : IsTrans String (periodLE g) :=
  ⟨fun _ _ _ hab hbc => le_trans hab hbc⟩

/-- Every row the inner loop emits for product key `k` carries `k`'s key
columns and satisfies the per-row arithmetic of lines 115-118 of
gap_analysis.py. -/
theorem gapRowsAux_mem_props (dem : List DemandRecord) (sup : List SupplyRecord)
    (g : PeriodType) (k : ProductKey) (l : List String) :
    ∀ (c : ℚ) (r : GapRow), r ∈ gapRowsAux dem sup g k l c →
      rowKey r = k ∧
      r.total_available = r.begin_inventory + r.supply_in_period ∧
      r.gap_quantity = r.total_available - r.total_demand_qty ∧
      (0 < r.total_demand_qty →
        r.fulfillment_rate_percent = 100 * r.total_available / r.total_demand_qty) ∧
      (r.total_demand_qty = 0 → r.fulfillment_rate_percent = 100) ∧
      (r.fulfillment_status = "✅ Fullfilled" ↔ 0 ≤ r.gap_quantity) ∧
      (r.fulfillment_status = "❌ Shortage" ↔ r.gap_quantity < 0) := by
  induction l with
  | nil => intro c r hr; simp [gapRowsAux] at hr
  | cons p rest ih =>
    intro c r hr
    simp only [gapRowsAux] at hr
    rcases List.mem_cons.mp hr with h | h
    · subst h
      dsimp only
      refine ⟨rfl, rfl, rfl, ?_, ?_, ?_, ?_⟩
      · intro hd
        simp only [if_pos hd]
        ring
      · intro hd
        have : ¬ (0 : ℚ) < demandSum dem k.pt_code p g := by rw [hd]; exact lt_irrefl (0 : ℚ)
        simp only [this, if_false]
      · by_cases hgap : (0 : ℚ) ≤ c + supplySum sup k.pt_code p g - demandSum dem k.pt_code p g
        · simp only [if_pos hgap]
          simpa using hgap
        · simp only [if_neg hgap]
          constructor
          · intro h'; exact absurd h' (by decide)
          · intro h'; exact absurd h'.le (fun hle => hgap (by linarith))
      · by_cases hgap : (0 : ℚ) ≤ c + supplySum sup k.pt_code p g - demandSum dem k.pt_code p g
        · simp only [if_pos hgap]
          constructor
          · intro h'; exact absurd h' (by decide)
          · intro h'; linarith
        · simp only [if_neg hgap]
          simpa using lt_of_not_le hgap
    · exact ih _ r h

/-- The periods of the rows the inner loop emits are exactly the period axis
it was handed, in order. -/
theorem gapRowsAux_map_period (dem : List DemandRecord) (sup : List SupplyRecord)
    (g : PeriodType) (k : ProductKey) (l : List String) :
    ∀ c : ℚ, (gapRowsAux dem sup g k l c).map (fun r => r.period) = l := by
  induction l with
  | nil => intro c; simp [gapRowsAux]
  | cons p rest ih => intro c; simp only [gapRowsAux, List.map_cons, ih]

/-- The first row the inner loop emits has `begin_inventory` equal to the
incoming carry. -/
theorem gapRowsAux_head_begin (dem : List DemandRecord) (sup : List SupplyRecord)
    (g : PeriodType) (k : ProductKey) (l : List String) (c : ℚ) (r : GapRow)
    (h : (gapRowsAux dem sup g k l c).head? = some r) : r.begin_inventory = c := by
  cases l with
  | nil => simp [gapRowsAux] at h
  | cons p rest =>
    simp only [gapRowsAux, List.head?_cons, Option.some.injEq] at h
    rw [← h]

/-- Adjacent rows the inner loop emits satisfy the carry-forward update
`carry_forward_qty = max(0, gap)` of line 135 of gap_analysis.py. -/
theorem gapRowsAux_chain (dem : List DemandRecord) (sup : List SupplyRecord)
    (g : PeriodType) (k : ProductKey) (l : List String) :
    ∀ c : ℚ, List.Chain' (fun a b => b.begin_inventory = max 0 a.gap_quantity)
      (gapRowsAux dem sup g k l c) := by
  induction l with
  | nil => intro c; simp [gapRowsAux]
  | cons p rest ih =>
    intro c
    simp only [gapRowsAux]
    rw [List.chain'_cons']
    refine ⟨?_, ih _⟩
    intro y hy
    exact gapRowsAux_head_begin dem sup g k rest _ y hy

/-- Filtering the concatenated per-product row blocks by a product key keeps
exactly that key's block (keys are deduplicated, so at most one block matches). -/
theorem filter_flatMap_keys (dem : List DemandRecord) (sup : List SupplyRecord)
    (g : PeriodType) (axis : List String) (k : ProductKey) :
    ∀ ks : List ProductKey, ks.Nodup →
      ((ks.flatMap fun k' => gapRowsAux dem sup g k' axis 0).filter
        fun r => rowKey r == k) =
        if k ∈ ks then gapRowsAux dem sup g k axis 0 else [] := by
  intro ks
  induction ks with
  | nil => intro _; simp
  | cons k' ks ih =>
    intro hnd
    rcases List.nodup_cons.mp hnd with ⟨hk', hnd'⟩
    rw [List.flatMap_cons, List.filter_append, ih hnd']
    by_cases hkk : k' = k
    · subst hkk
      have h1 : (gapRowsAux dem sup g k' axis 0).filter (fun r => rowKey r == k') =
          gapRowsAux dem sup g k' axis 0 := by
        apply List.filter_eq_self.mpr
        intro r hr
        have := (gapRowsAux_mem_props dem sup g k' axis 0 r hr).1
        simp [this]
      rw [h1, if_neg hk', if_pos (List.mem_cons_self k' ks)]
      simp
    · have h1 : (gapRowsAux dem sup g k' axis 0).filter (fun r => rowKey r == k) = [] := by
        apply List.filter_eq_nil_iff.mpr
        intro r hr
        have := (gapRowsAux_mem_props dem sup g k' axis 0 r hr).1
        simp [this, hkk]
      rw [h1, List.nil_append]
      by_cases hmem : k ∈ ks
      · rw [if_pos hmem, if_pos (List.mem_cons_of_mem k' hmem)]
      · have hnot : k ∉ k' :: ks := by
          intro hmem2
          rcases List.mem_cons.mp hmem2 with h | h
          · exact hkk h.symm
          · exact hmem h
        rw [if_neg hmem, if_neg hnot]

/-- The rows of `calculate_gap_with_carry_forward` carrying product key `k`
are exactly the inner loop's block for `k` (empty when `k` is not among
`all_keys`). -/
theorem filter_calculate (dem : List DemandRecord) (sup : List SupplyRecord)
    (g : PeriodType) (k : ProductKey) :
    ((calculate_gap_with_carry_forward dem sup g).filter fun r => rowKey r == k) =
      if k ∈ allKeys dem sup g then
        gapRowsAux dem sup g k (sortPeriods g (allPeriodsRaw dem sup g)) 0
      else [] := by
  unfold calculate_gap_with_carry_forward
  exact filter_flatMap_keys dem sup g _ k (allKeys dem sup g) (List.nodup_dedup _)

/-- The sample snapshot evaluates to exactly the two rows the specification's
first Weekly scenario expects. -/
theorem sampleCalc_eq :
    calculate_gap_with_carry_forward sampleDemand sampleSupply PeriodType.Weekly =
      [⟨"P1", "N", "S", "U", "Week 2 - 2025", 0, 80, 80, 100, -20, 80, "❌ Shortage"⟩,
       ⟨"P1", "N", "S", "U", "Week 3 - 2025", 0, 90, 90, 50, 40, 180, "✅ Fullfilled"⟩] := by
  have hax : sortPeriods PeriodType.Weekly (allPeriodsRaw sampleDemand sampleSupply PeriodType.Weekly)
      = ["Week 2 - 2025", "Week 3 - 2025"] := by decide
  have hkeys : allKeys sampleDemand sampleSupply PeriodType.Weekly
      = [⟨"P1", "N", "S", "U"⟩] := by decide
  have hc1 : convert_to_period (some ⟨2025, 1, 6⟩) PeriodType.Weekly = some "Week 2 - 2025" := by
    decide
  have hc2 : convert_to_period (some ⟨2025, 1, 13⟩) PeriodType.Weekly = some "Week 3 - 2025" := by
    decide
  have hb1 : ((some "Week 3 - 2025" : Option String) == some "Week 2 - 2025") = false := by decide
  have hb2 : ((some "Week 2 - 2025" : Option String) == some "Week 3 - 2025") = false := by decide
  unfold calculate_gap_with_carry_forward
  rw [hax, hkeys]
  norm_num [List.flatMap_cons, List.flatMap_nil, List.append_nil, gapRowsAux,
    demandSum, supplySum, sampleDemand, sampleSupply, hc1, hc2, hb1, hb2, List.filter,
    GapRow.mk.injEq]

/-- C1 (confirmed): in the output of calculate_gap_with_carry_forward, for
every product key, the rows carrying that key are emitted along the sorted
period axis, and each row's begin_inventory equals max(0, gap_quantity) of the
chronologically previous row of the same product: deficits never propagate as
negative inventory into the next period. -/
theorem C1_carry_forward_invariant (dem : List DemandRecord) (sup : List SupplyRecord)
    (g : PeriodType) (k : ProductKey) :
    List.Chain' (fun a b => b.begin_inventory = max 0 a.gap_quantity)
      ((calculate_gap_with_carry_forward dem sup g).filter fun r => rowKey r == k) := by
  rw [filter_calculate]
  split_ifs
  · exact gapRowsAux_chain dem sup g k _ 0
  · exact List.chain'_nil

/-- C2 (confirmed): every row emitted by calculate_gap_with_carry_forward has
total_available = begin_inventory + supply_in_period and
gap_quantity = total_available - total_demand_qty, exactly. -/
theorem C2_conservation (dem : List DemandRecord) (sup : List SupplyRecord)
    (g : PeriodType) (r : GapRow) (hr : r ∈ calculate_gap_with_carry_forward dem sup g) :
    r.total_available = r.begin_inventory + r.supply_in_period ∧
      r.gap_quantity = r.total_available - r.total_demand_qty := by
  unfold calculate_gap_with_carry_forward at hr
  rcases List.mem_flatMap.mp hr with ⟨k, _, hrk⟩
  have h := gapRowsAux_mem_props dem sup g k _ 0 r hrk
  exact ⟨h.2.1, h.2.2.1⟩

/-- Witness for C2 at the sample snapshot: the ISO-week-2 row is in the output
and satisfies both conservation identities. -/
theorem C2_conservation_witness :
    (⟨"P1", "N", "S", "U", "Week 2 - 2025", 0, 80, 80, 100, -20, 80, "❌ Shortage"⟩ : GapRow)
      ∈ calculate_gap_with_carry_forward sampleDemand sampleSupply PeriodType.Weekly ∧
    (80 : ℚ) = 0 + 80 ∧ (-20 : ℚ) = 80 - 100 := by
  have hmem : (⟨"P1", "N", "S", "U", "Week 2 - 2025", 0, 80, 80, 100, -20, 80,
      "❌ Shortage"⟩ : GapRow)
      ∈ calculate_gap_with_carry_forward sampleDemand sampleSupply PeriodType.Weekly := by
    rw [sampleCalc_eq]
    simp
  exact ⟨hmem, C2_conservation sampleDemand sampleSupply PeriodType.Weekly _ hmem⟩

/-- C3 (confirmed): every row emitted by calculate_gap_with_carry_forward has
fulfillment_rate_percent = 100 * total_available / total_demand_qty when
total_demand_qty > 0, and exactly 100 when total_demand_qty = 0, regardless of
supply. -/
theorem C3_fulfillment_rate (dem : List DemandRecord) (sup : List SupplyRecord)
    (g : PeriodType) (r : GapRow) (hr : r ∈ calculate_gap_with_carry_forward dem sup g) :
    (0 < r.total_demand_qty →
      r.fulfillment_rate_percent = 100 * r.total_available / r.total_demand_qty) ∧
    (r.total_demand_qty = 0 → r.fulfillment_rate_percent = 100) := by
  unfold calculate_gap_with_carry_forward at hr
  rcases List.mem_flatMap.mp hr with ⟨k, _, hrk⟩
  have h := gapRowsAux_mem_props dem sup g k _ 0 r hrk
  exact ⟨h.2.2.2.1, h.2.2.2.2.1⟩

/-- Witness for C3 at the sample snapshot: the ISO-week-2 row has positive
demand and rate 100 * 80 / 100 = 80. -/
theorem C3_fulfillment_rate_witness :
    (⟨"P1", "N", "S", "U", "Week 2 - 2025", 0, 80, 80, 100, -20, 80, "❌ Shortage"⟩ : GapRow)
      ∈ calculate_gap_with_carry_forward sampleDemand sampleSupply PeriodType.Weekly ∧
    (0 : ℚ) < 100 ∧ (80 : ℚ) = 100 * 80 / 100 := by
  have hmem : (⟨"P1", "N", "S", "U", "Week 2 - 2025", 0, 80, 80, 100, -20, 80,
      "❌ Shortage"⟩ : GapRow)
      ∈ calculate_gap_with_carry_forward sampleDemand sampleSupply PeriodType.Weekly := by
    rw [sampleCalc_eq]
    simp
  refine ⟨hmem, by norm_num, ?_⟩
  exact (C3_fulfillment_rate sampleDemand sampleSupply PeriodType.Weekly _ hmem).1 (by norm_num)

/-- C4 (confirmed): every row emitted by calculate_gap_with_carry_forward has
fulfillment_status equal to the Fulfilled value (the source's literal
"✅ Fullfilled") iff gap_quantity ≥ 0, and equal to the Shortage value
("❌ Shortage") iff gap_quantity < 0. -/
theorem C4_status_consistency (dem : List DemandRecord) (sup : List SupplyRecord)
    (g : PeriodType) (r : GapRow) (hr : r ∈ calculate_gap_with_carry_forward dem sup g) :
    (r.fulfillment_status = "✅ Fullfilled" ↔ 0 ≤ r.gap_quantity) ∧
    (r.fulfillment_status = "❌ Shortage" ↔ r.gap_quantity < 0) := by
  unfold calculate_gap_with_carry_forward at hr
  rcases List.mem_flatMap.mp hr with ⟨k, _, hrk⟩
  have h := gapRowsAux_mem_props dem sup g k _ 0 r hrk
  exact ⟨h.2.2.2.2.2.1, h.2.2.2.2.2.2⟩

/-- Witness for C4 at the sample snapshot: the ISO-week-2 row has gap -20 < 0
and status Shortage. -/
theorem C4_status_consistency_witness :
    (⟨"P1", "N", "S", "U", "Week 2 - 2025", 0, 80, 80, 100, -20, 80, "❌ Shortage"⟩ : GapRow)
      ∈ calculate_gap_with_carry_forward sampleDemand sampleSupply PeriodType.Weekly ∧
    ("❌ Shortage" = "❌ Shortage" ↔ (-20 : ℚ) < 0) := by
  have hmem : (⟨"P1", "N", "S", "U", "Week 2 - 2025", 0, 80, 80, 100, -20, 80,
      "❌ Shortage"⟩ : GapRow)
      ∈ calculate_gap_with_carry_forward sampleDemand sampleSupply PeriodType.Weekly := by
    rw [sampleCalc_eq]
    simp
  exact ⟨hmem, (C4_status_consistency sampleDemand sampleSupply PeriodType.Weekly _ hmem).2⟩

/-- C5 (confirmed): for every product appearing in the output of
calculate_gap_with_carry_forward, the first row of that product (the row at
the earliest period of the sorted axis) has begin_inventory exactly 0. -/
theorem C5_first_period_invariant (dem : List DemandRecord) (sup : List SupplyRecord)
    (g : PeriodType) (k : ProductKey) (r : GapRow)
    (h : ((calculate_gap_with_carry_forward dem sup g).filter
      fun r => rowKey r == k).head? = some r) :
    r.begin_inventory = 0 := by
  rw [filter_calculate] at h
  split_ifs at h
  · exact gapRowsAux_head_begin dem sup g k _ 0 r h
  · simp at h

/-- Witness for C5 at the sample snapshot: the first row for product P1 has
begin_inventory 0. -/
theorem C5_first_period_invariant_witness :
    ((calculate_gap_with_carry_forward sampleDemand sampleSupply PeriodType.Weekly).filter
      fun r => rowKey r == (⟨"P1", "N", "S", "U"⟩ : ProductKey)).head? =
      some ⟨"P1", "N", "S", "U", "Week 2 - 2025", 0, 80, 80, 100, -20, 80, "❌ Shortage"⟩ ∧
    (⟨"P1", "N", "S", "U", "Week 2 - 2025", 0, 80, 80, 100, -20, 80,
      "❌ Shortage"⟩ : GapRow).begin_inventory = 0 := by
  have hh : ((calculate_gap_with_carry_forward sampleDemand sampleSupply PeriodType.Weekly).filter
      fun r => rowKey r == (⟨"P1", "N", "S", "U"⟩ : ProductKey)).head? =
      some ⟨"P1", "N", "S", "U", "Week 2 - 2025", 0, 80, 80, 100, -20, 80, "❌ Shortage"⟩ := by
    rw [sampleCalc_eq]
    simp [rowKey]
  exact ⟨hh, C5_first_period_invariant sampleDemand sampleSupply PeriodType.Weekly _ _ hh⟩

/-- C6 (confirmed): for every product key appearing in either aggregate, the
period column of that product's rows in the output equals (in order) the
sorted global period axis; the axis is a permutation of the distinct periods
of the two aggregates, is sorted ascending by the period comparator, and
contains a period iff that period occurs in the demand or supply aggregate
(for any product). -/
theorem C6_axis_coverage (dem : List DemandRecord) (sup : List SupplyRecord)
    (g : PeriodType) (k : ProductKey) (hk : k ∈ allKeys dem sup g) :
    ((calculate_gap_with_carry_forward dem sup g).filter
        fun r => rowKey r == k).map (fun r => r.period) =
      sortPeriods g (allPeriodsRaw dem sup g) ∧
    (sortPeriods g (allPeriodsRaw dem sup g)).Perm (allPeriodsRaw dem sup g) ∧
    List.Sorted (periodLE g) (sortPeriods g (allPeriodsRaw dem sup g)) ∧
    ∀ p, p ∈ sortPeriods g (allPeriodsRaw dem sup g) ↔
      (p ∈ periodsOfDemand dem g ∨ p ∈ periodsOfSupply sup g) := by
  refine ⟨?_, List.perm_insertionSort _ _, List.sorted_insertionSort _ _, ?_⟩
  · rw [filter_calculate, if_pos hk]
    exact gapRowsAux_map_period dem sup g k _ 0
  · intro p
    unfold sortPeriods allPeriodsRaw
    rw [(List.perm_insertionSort (periodLE g) _).mem_iff, List.mem_dedup, List.mem_append]

/-- Witness for C6 at the sample snapshot: product P1 is among the keys, its
row periods are the sorted axis, and ISO week 2 of 2025 is on the axis because
a demand record buckets to it. -/
theorem C6_axis_coverage_witness :
    (⟨"P1", "N", "S", "U"⟩ : ProductKey)
        ∈ allKeys sampleDemand sampleSupply PeriodType.Weekly ∧
    ((calculate_gap_with_carry_forward sampleDemand sampleSupply PeriodType.Weekly).filter
        fun r => rowKey r == (⟨"P1", "N", "S", "U"⟩ : ProductKey)).map (fun r => r.period) =
      sortPeriods PeriodType.Weekly
        (allPeriodsRaw sampleDemand sampleSupply PeriodType.Weekly) ∧
    ("Week 2 - 2025" ∈ sortPeriods PeriodType.Weekly
        (allPeriodsRaw sampleDemand sampleSupply PeriodType.Weekly) ↔
      ("Week 2 - 2025" ∈ periodsOfDemand sampleDemand PeriodType.Weekly ∨
        "Week 2 - 2025" ∈ periodsOfSupply sampleSupply PeriodType.Weekly)) := by
  have hk : (⟨"P1", "N", "S", "U"⟩ : ProductKey)
      ∈ allKeys sampleDemand sampleSupply PeriodType.Weekly := by decide
  refine ⟨hk, ?_, ?_⟩
  · exact (C6_axis_coverage sampleDemand sampleSupply PeriodType.Weekly _ hk).1
  · exact (C6_axis_coverage sampleDemand sampleSupply PeriodType.Weekly _ hk).2.2.2
      "Week 2 - 2025"

/-- Counterexample to C7: the claim says a period label that cannot be parsed
back into a sort key must make the ordering subsystem raise/abort rather than
receive a position in the sorted axis. In the code the Weekly parse of
"Week <NA> - <NA>" fails (the except branch is taken, `none` here), yet the
label is sorted to a definite position — last — in the axis. -/
theorem C7_counterexample :
    get_period_datetime_attempt "Week <NA> - <NA>" PeriodType.Weekly = none ∧
    sortPeriods PeriodType.Weekly ["Week <NA> - <NA>", "Week 1 - 2025"] =
      ["Week 1 - 2025", "Week <NA> - <NA>"] := by decide

/-- C7 (corrected): an unparseable period label is not fatal: each branch of
get_period_datetime catches its exception and returns pd.Timestamp.max, so the
label keeps a deterministic position in the sorted axis, after every label
whose key is below pd.Timestamp.max. -/
theorem C7_amended (g : PeriodType) (s : String) (axis : List String)
    (hs : get_period_datetime_attempt s g = none) (hax : s ∈ axis) :
    get_period_datetime s g = pdTimestampMax ∧
    s ∈ sortPeriods g axis ∧
    ∀ t, get_period_datetime t g < pdTimestampMax →
      get_period_datetime t g < get_period_datetime s g := by
  have hmax : get_period_datetime s g = pdTimestampMax := by
    rw [get_period_datetime, hs]
    rfl
  refine ⟨hmax, ?_, ?_⟩
  · exact ((List.perm_insertionSort (periodLE g) axis).mem_iff).mpr hax
  · intro t ht
    rw [hmax]
    exact ht

/-- Witness for C7's amended statement at the unparseable Weekly label
"Week <NA> - <NA>" in a two-label axis. -/
theorem C7_amended_witness :
    get_period_datetime_attempt "Week <NA> - <NA>" PeriodType.Weekly = none ∧
    get_period_datetime "Week <NA> - <NA>" PeriodType.Weekly = pdTimestampMax ∧
    "Week <NA> - <NA>" ∈ sortPeriods PeriodType.Weekly ["Week 1 - 2025", "Week <NA> - <NA>"] ∧
    get_period_datetime "Week 1 - 2025" PeriodType.Weekly <
      get_period_datetime "Week <NA> - <NA>" PeriodType.Weekly := by
  have h := C7_amended PeriodType.Weekly "Week <NA> - <NA>"
    ["Week 1 - 2025", "Week <NA> - <NA>"] (by decide) (by decide)
  exact ⟨by decide, h.1, h.2.1, h.2.2 "Week 1 - 2025" (by decide)⟩

/-- Counterexample to C10: an unparseable label is mapped to pd.Timestamp.max,
but that does not place it after EVERY parseable period of the axis: the
Weekly label of 2262-04-11 (the last pandas-representable date) is
"Week 15 - 2262", whose `%W`-based parse is 2262-04-14 — a `datetime` beyond
pd.Timestamp.max — so this parseable label sorts after the unparseable one. -/
theorem C10_counterexample :
    convert_to_period (some ⟨2262, 4, 11⟩) PeriodType.Weekly = some "Week 15 - 2262" ∧
    get_period_datetime_attempt "Week <NA> - <NA>" PeriodType.Weekly = none ∧
    get_period_datetime_attempt "Week 15 - 2262" PeriodType.Weekly = some (2 * 825917) ∧
    pdTimestampMax < 2 * 825917 ∧
    get_period_datetime "Week <NA> - <NA>" PeriodType.Weekly <
      get_period_datetime "Week 15 - 2262" PeriodType.Weekly ∧
    sortPeriods PeriodType.Weekly ["Week 15 - 2262", "Week <NA> - <NA>"] =
      ["Week <NA> - <NA>", "Week 15 - 2262"] := by decide

/-- C10 (corrected): get_period_datetime is total — it never raises, returning
the parsed timestamp when the try-block succeeds and pd.Timestamp.max
otherwise — so every unparseable label is deterministically placed after every
parseable label whose parsed key is below pd.Timestamp.max (but not after the
rare weekly labels that parse beyond pd.Timestamp.max). -/
theorem C10_amended (g : PeriodType) (s t : String) (k : Int)
    (hs : get_period_datetime_attempt s g = none)
    (ht : get_period_datetime_attempt t g = some k) (hk : k < pdTimestampMax) :
    get_period_datetime s g = pdTimestampMax ∧
    get_period_datetime t g = k ∧
    get_period_datetime t g < get_period_datetime s g := by
  have h1 : get_period_datetime s g = pdTimestampMax := by
    rw [get_period_datetime, hs]
    rfl
  have h2 : get_period_datetime t g = k := by
    rw [get_period_datetime, ht]
    rfl
  exact ⟨h1, h2, by rw [h1, h2]; exact hk⟩

/-- Witness for C10's amended statement: "Week <NA> - <NA>" is unparseable,
"Week 2 - 2025" parses to a key below pd.Timestamp.max, and the former sorts
after the latter. -/
theorem C10_amended_witness :
    get_period_datetime_attempt "Week <NA> - <NA>" PeriodType.Weekly = none ∧
    get_period_datetime_attempt "Week 2 - 2025" PeriodType.Weekly = some 1478528 ∧
    (1478528 : Int) < pdTimestampMax ∧
    get_period_datetime "Week 2 - 2025" PeriodType.Weekly <
      get_period_datetime "Week <NA> - <NA>" PeriodType.Weekly := by
  have h := C10_amended PeriodType.Weekly "Week <NA> - <NA>" "Week 2 - 2025" 1478528
    (by decide) (by decide) (by decide)
  exact ⟨by decide, by decide, by decide, h.2.2⟩

/-- Pre-filtering by a predicate that holds whenever `f` produces a value does
not change a `filterMap`. -/
theorem filterMap_filter_of_imp {α β : Type} (f : α → Option β) (q : α → Bool)
    (h : ∀ a, q a = false → f a = none) :
    ∀ l : List α, (l.filter q).filterMap f = l.filterMap f := by
  intro l
  induction l with
  | nil => rfl
  | cons a l ih =>
    by_cases hq : q a = true
    · rw [List.filter_cons_of_pos hq, List.filterMap_cons, List.filterMap_cons, ih]
    · have hq' : q a = false := by simpa using hq
      rw [List.filter_cons_of_neg (by simp [hq']), List.filterMap_cons, h a hq', ih]

/-- Pre-filtering by a weaker predicate does not change a `filter`. -/
theorem filter_filter_of_imp {α : Type} (p q : α → Bool)
    (h : ∀ a, p a = true → q a = true) :
    ∀ l : List α, (l.filter q).filter p = l.filter p := by
  intro l
  induction l with
  | nil => rfl
  | cons a l ih =>
    by_cases hq : q a = true
    · rw [List.filter_cons_of_pos hq]
      by_cases hp : p a = true
      · rw [List.filter_cons_of_pos hp, List.filter_cons_of_pos hp, ih]
      · rw [List.filter_cons_of_neg (by simpa using hp),
          List.filter_cons_of_neg (by simpa using hp), ih]
    · have hp : p a = false := by
        by_contra hc
        exact hq (h a (by simpa using hc))
      rw [List.filter_cons_of_neg (by simp [hq]), List.filter_cons_of_neg (by simp [hp]), ih]

/-- The inner loop only looks at the inputs through `demandSum` and
`supplySum`, so inputs with identical sums produce identical rows. -/
theorem gapRowsAux_congr (dem dem' : List DemandRecord) (sup sup' : List SupplyRecord)
    (g : PeriodType) (k : ProductKey)
    (hd : ∀ p, demandSum dem' k.pt_code p g = demandSum dem k.pt_code p g)
    (hs : ∀ p, supplySum sup' k.pt_code p g = supplySum sup k.pt_code p g) :
    ∀ (l : List String) (c : ℚ), gapRowsAux dem' sup' g k l c = gapRowsAux dem sup g k l c := by
  intro l
  induction l with
  | nil => intro c; rfl
  | cons p rest ih =>
    intro c
    simp only [gapRowsAux, hd, hs, ih]

/-- Counterexample to C8: under Weekly bucketing a record with a null date is
NOT excluded: `isocalendar().week.astype(str)` renders the missing value as
the string "<NA>", so the record lands in the synthetic period
"Week <NA> - <NA>" and produces an output row. -/
theorem C8_counterexample :
    calculate_gap_with_carry_forward nullEtdDemand [] PeriodType.Weekly =
      [⟨"P1", "N", "S", "U", "Week <NA> - <NA>", 0, 0, 0, 5, -5, 0, "❌ Shortage"⟩] := by
  have hax : sortPeriods PeriodType.Weekly (allPeriodsRaw nullEtdDemand [] PeriodType.Weekly)
      = ["Week <NA> - <NA>"] := by decide
  have hkeys : allKeys nullEtdDemand [] PeriodType.Weekly = [⟨"P1", "N", "S", "U"⟩] := by decide
  have hc : convert_to_period none PeriodType.Weekly = some "Week <NA> - <NA>" := by decide
  unfold calculate_gap_with_carry_forward
  rw [hax, hkeys]
  norm_num [List.flatMap_cons, List.flatMap_nil, List.append_nil, gapRowsAux,
    demandSum, supplySum, nullEtdDemand, hc, List.filter, GapRow.mk.injEq]

/-- C8 (corrected): for Daily and Monthly bucketing, records with a null date
are excluded — dropping them beforehand does not change the output of
calculate_gap_with_carry_forward at all (their period is NaN and `groupby`
drops them); under Weekly they are instead bucketed into the literal label
"Week <NA> - <NA>" (see the counterexample). -/
theorem C8_null_date_exclusion (dem : List DemandRecord) (sup : List SupplyRecord)
    (g : PeriodType) (hg : g = PeriodType.Daily ∨ g = PeriodType.Monthly) :
    calculate_gap_with_carry_forward (dem.filter fun r => r.etd.isSome)
        (sup.filter fun r => r.date_ref.isSome) g =
      calculate_gap_with_carry_forward dem sup g := by
  have hnone : convert_to_period none g = none := by
    rcases hg with h | h <;> subst h <;> rfl
  have hdem : ∀ r : DemandRecord, (r.etd.isSome : Bool) = false →
      convert_to_period r.etd g = none := by
    intro r hr
    cases he : r.etd with
    | none => exact hnone
    | some d => rw [he] at hr; simp at hr
  have hsup : ∀ r : SupplyRecord, (r.date_ref.isSome : Bool) = false →
      convert_to_period r.date_ref g = none := by
    intro r hr
    cases he : r.date_ref with
    | none => exact hnone
    | some d => rw [he] at hr; simp at hr
  have hPd : periodsOfDemand (dem.filter fun r => r.etd.isSome) g = periodsOfDemand dem g :=
    filterMap_filter_of_imp _ _ hdem dem
  have hPs : periodsOfSupply (sup.filter fun r => r.date_ref.isSome) g =
      periodsOfSupply sup g :=
    filterMap_filter_of_imp _ _ hsup sup
  have hK : allKeys (dem.filter fun r => r.etd.isSome)
      (sup.filter fun r => r.date_ref.isSome) g = allKeys dem sup g := by
    unfold allKeys
    rw [filterMap_filter_of_imp _ _ (fun r hr => by rw [hdem r hr]; rfl) dem,
      filterMap_filter_of_imp _ _ (fun r hr => by rw [hsup r hr]; rfl) sup]
  have hDS : ∀ pt p, demandSum (dem.filter fun r => r.etd.isSome) pt p g =
      demandSum dem pt p g := by
    intro pt p
    unfold demandSum
    rw [filter_filter_of_imp _ _ ?_ dem]
    intro r hr
    rcases Bool.and_eq_true_iff.mp hr with ⟨-, h2⟩
    cases he : r.etd with
    | none => rw [he, hnone] at h2; simp at h2
    | some d => rfl
  have hSS : ∀ pt p, supplySum (sup.filter fun r => r.date_ref.isSome) pt p g =
      supplySum sup pt p g := by
    intro pt p
    unfold supplySum
    rw [filter_filter_of_imp _ _ ?_ sup]
    intro r hr
    rcases Bool.and_eq_true_iff.mp hr with ⟨-, h2⟩
    cases he : r.date_ref with
    | none => rw [he, hnone] at h2; simp at h2
    | some d => rfl
  unfold calculate_gap_with_carry_forward allPeriodsRaw
  rw [hPd, hPs, hK]
  dsimp only
  congr 1
  funext k
  exact gapRowsAux_congr dem _ sup _ g k (fun p => hDS k.pt_code p) (fun p => hSS k.pt_code p) _ 0

/-- Witness for C8's amended statement: with Daily bucketing, dropping the
null-date record beforehand leaves the output unchanged. -/
theorem C8_null_date_exclusion_witness :
    (PeriodType.Daily = PeriodType.Daily ∨ PeriodType.Daily = PeriodType.Monthly) ∧
    calculate_gap_with_carry_forward (nullEtdDemand.filter fun r => r.etd.isSome)
        (([] : List SupplyRecord).filter fun r => r.date_ref.isSome) PeriodType.Daily =
      calculate_gap_with_carry_forward nullEtdDemand [] PeriodType.Daily :=
  ⟨Or.inl rfl, C8_null_date_exclusion nullEtdDemand [] PeriodType.Daily (Or.inl rfl)⟩

/-- Boolean leap test unfolded to arithmetic. -/
theorem isLeap_iff (y : Nat) : isLeap y = true ↔ (y % 4 = 0 ∧ (y % 100 ≠ 0 ∨ y % 400 = 0)) := by
  simp [isLeap]

set_option maxHeartbeats 1000000 in
/-- One Gregorian year adds 365 or 366 days to the year offset. -/
theorem daysBeforeYear_succ (y : Nat) (hy : 1 ≤ y) :
    daysBeforeYear (y + 1) = daysBeforeYear y + (if isLeap y then 366 else 365) := by
  by_cases hl : isLeap y = true
  · rw [if_pos hl]
    rw [isLeap_iff] at hl
    unfold daysBeforeYear
    omega
  · rw [if_neg hl]
    rw [isLeap_iff] at hl
    push_neg at hl
    unfold daysBeforeYear
    omega

/-- Year offsets never decrease from one year to the next. -/
theorem daysBeforeYear_le_succ (y : Nat) : daysBeforeYear y ≤ daysBeforeYear (y + 1) := by
  cases y with
  | zero => decide
  | succ n =>
    rw [daysBeforeYear_succ (n + 1) (Nat.succ_le_succ (Nat.zero_le n))]
    split_ifs <;> omega

/-- Year offsets are monotone. -/
theorem daysBeforeYear_mono (y1 y2 : Nat) (h : y1 ≤ y2) :
    daysBeforeYear y1 ≤ daysBeforeYear y2 := by
  induction y2 with
  | zero =>
    have h0 : y1 = 0 := Nat.le_zero.mp h
    rw [h0]
  | succ n ih =>
    by_cases hc : y1 ≤ n
    · exact le_trans (ih hc) (daysBeforeYear_le_succ n)
    · have he : y1 = n + 1 := by omega
      rw [he]

/-- A strictly later year is at least 365 days further on. -/
theorem daysBeforeYear_add_365 (y1 y2 : Nat) (h1 : 1 ≤ y1) (h : y1 < y2) :
    daysBeforeYear y1 + 365 ≤ daysBeforeYear y2 := by
  have hs := daysBeforeYear_succ y1 h1
  have hm := daysBeforeYear_mono (y1 + 1) y2 h
  split_ifs at hs <;> omega

/-- A full earlier month fits before a later month's offset of the same year. -/
theorem daysBeforeMonth_add_le (y m1 m2 : Nat) (h1 : 1 ≤ m1) (h : m1 < m2) (h2 : m2 ≤ 12) :
    daysBeforeMonth y m1 + daysInMonth y m1 ≤ daysBeforeMonth y m2 := by
  have hub : m1 ≤ 12 := by omega
  by_cases hl : isLeap y = true <;>
    interval_cases m1 <;> interval_cases m2 <;> simp [daysBeforeMonth, daysInMonth, hl]

/-- A valid month/day position lies within the year's length. -/
theorem daysBeforeMonth_day_le (y m d : Nat) (h1 : 1 ≤ m) (h2 : m ≤ 12)
    (hd : d ≤ daysInMonth y m) :
    daysBeforeMonth y m + d ≤ 365 + (if isLeap y then 1 else 0) := by
  by_cases hl : isLeap y = true <;>
    interval_cases m <;> simp [daysBeforeMonth, daysInMonth, hl] at hd ⊢ <;> omega

/-- The ordinal is strictly monotone along the (year, month, day) lexicographic
order, for calendar-valid dates. -/
theorem toOrdinal_lt_of_lex (y1 m1 dd1 y2 m2 dd2 : Nat)
    (hy1 : 1 ≤ y1)
    (hm1 : 1 ≤ m1) (hm1' : m1 ≤ 12) (hd1 : 1 ≤ dd1) (hd1' : dd1 ≤ daysInMonth y1 m1)
    (hm2 : 1 ≤ m2) (hm2' : m2 ≤ 12) (hd2 : 1 ≤ dd2)
    (hlex : y1 < y2 ∨ (y1 = y2 ∧ (m1 < m2 ∨ (m1 = m2 ∧ dd1 < dd2)))) :
    toOrdinal ⟨y1, m1, dd1⟩ < toOrdinal ⟨y2, m2, dd2⟩ := by
  unfold toOrdinal
  dsimp only
  rcases hlex with hy | ⟨hy, hm | ⟨hm, hd⟩⟩
  · have hb := daysBeforeMonth_day_le y1 m1 dd1 hm1 hm1' hd1'
    have hs := daysBeforeYear_succ y1 hy1
    have hmono := daysBeforeYear_mono (y1 + 1) y2 hy
    split_ifs at hb hs <;> omega
  · subst hy
    have hb := daysBeforeMonth_add_le y1 m1 m2 hm1 hm hm2'
    omega
  · subst hy; subst hm; omega

/-- Comparing ordinals of calendar-valid dates is exactly the lexicographic
comparison of their (year, month, day) components. -/
theorem toOrdinal_lt_iff_lex (y1 m1 dd1 y2 m2 dd2 : Nat)
    (hy1 : 1 ≤ y1) (hy2 : 1 ≤ y2)
    (hm1 : 1 ≤ m1) (hm1' : m1 ≤ 12) (hd1 : 1 ≤ dd1) (hd1' : dd1 ≤ daysInMonth y1 m1)
    (hm2 : 1 ≤ m2) (hm2' : m2 ≤ 12) (hd2 : 1 ≤ dd2) (hd2' : dd2 ≤ daysInMonth y2 m2) :
    (toOrdinal ⟨y1, m1, dd1⟩ < toOrdinal ⟨y2, m2, dd2⟩) ↔
      (y1 < y2 ∨ (y1 = y2 ∧ (m1 < m2 ∨ (m1 = m2 ∧ dd1 < dd2)))) := by
  constructor
  · intro hlt
    by_contra hnot
    push_neg at hnot
    have htri : (y1 = y2 ∧ m1 = m2 ∧ dd1 = dd2) ∨
        (y2 < y1 ∨ (y2 = y1 ∧ (m2 < m1 ∨ (m2 = m1 ∧ dd2 < dd1)))) := by omega
    rcases htri with ⟨h1, h2, h3⟩ | hgt
    · subst h1; subst h2; subst h3; exact lt_irrefl _ hlt
    · have := toOrdinal_lt_of_lex y2 m2 dd2 y1 m1 dd1 hy2 hm2 hm2' hd2 hd2' hm1 hm1' hd1 hgt
      omega
  · exact toOrdinal_lt_of_lex y1 m1 dd1 y2 m2 dd2 hy1 hm1 hm1' hd1 hd1' hm2 hm2' hd2

/-- Every valid month has at least one day. -/
theorem daysInMonth_pos (y m : Nat) (h1 : 1 ≤ m) (h2 : m ≤ 12) : 1 ≤ daysInMonth y m := by
  interval_cases m <;> simp [daysInMonth] <;> split_ifs <;> omega

set_option maxHeartbeats 1000000 in
/-- A recognised month abbreviation yields a month number in 1..12. -/
theorem monthFromChars_range (l : List Char) (m : Nat) (h : monthFromChars l = some m) :
    1 ≤ m ∧ m ≤ 12 := by
  unfold monthFromChars at h
  dsimp only at h
  generalize String.mk (List.map Char.toLower l) = t at h
  split_ifs at h <;> first | (injection h with h2; omega) | cases h

/-- A successful monthly-label parse yields a month number in 1..12. -/
theorem parseMonthlyLabel_range (s : String) (y m : Nat)
    (h : parseMonthlyLabel s = some (y, m)) : 1 ≤ m ∧ m ≤ 12 := by
  unfold parseMonthlyLabel at h
  dsimp only at h
  split at h
  · cases h
  next m' hm' =>
    split at h
    · cases h
    next c cs =>
      split_ifs at h
      · simp only [Option.some.injEq, Prod.mk.injEq] at h
        obtain ⟨-, rfl⟩ := h
        exact monthFromChars_range _ _ hm'

/-- A successful bounded `pd.to_datetime` yields twice the ordinal, and the
year lies within the datetime64[ns] year range. -/
theorem pdTimestampOf_some (d : Date) (k : Int) (h : pdTimestampOf d = some k) :
    k = 2 * (toOrdinal d : Int) ∧ 1677 ≤ d.year ∧ d.year ≤ 2262 := by
  unfold pdTimestampOf at h
  split_ifs at h with hg
  · simp only [Option.some.injEq] at h
    rcases Bool.and_eq_true_iff.mp hg with ⟨h1, h2⟩
    simp only [dateLtB, pdMinDate, pdMaxDate, Bool.or_eq_true, Bool.and_eq_true,
      decide_eq_true_eq, beq_iff_eq] at h1 h2
    refine ⟨h.symm, by omega, ?_⟩
    rcases h2 with h2 | h2
    · omega
    · rw [h2]

/-- A successful daily-label parse yields a calendar-valid date. -/
theorem parseDailyLabel_valid (s : String) (d : Date) (h : parseDailyLabel s = some d) :
    1 ≤ d.month ∧ d.month ≤ 12 ∧ 1 ≤ d.day ∧ d.day ≤ daysInMonth d.year d.month := by
  unfold parseDailyLabel at h
  dsimp only at h
  split at h
  next ys ms ds =>
    split_ifs at h with h1 h2
    · simp only [Option.some.injEq] at h
      subst h
      simp only [Bool.and_eq_true, decide_eq_true_eq] at h2
      exact ⟨h2.1.1.1, h2.1.1.2, h2.1.2, h2.2⟩
  all_goals cases h

/-- Closed form of the largest datetime ordinal, shifted to year 9998. -/
theorem maxDatetimeOrdinal_eq : maxDatetimeOrdinal = (daysBeforeYear 9998 : Int) + 730 := by
  decide

set_option maxHeartbeats 1000000 in
/-- Closed form of the `%Y-W%W-%w` strptime result for weeks 1..53 of 4-digit
years up to 9998 (such a parse never overflows the datetime range). -/
theorem strptimeYW_eval (y w : Int) (hy1 : 1000 ≤ y) (hy2 : y ≤ 9998)
    (hw1 : 1 ≤ w) (hw2 : w ≤ 53) :
    strptimeYW y w = some (2 * ((daysBeforeYear y.toNat : Int) + 1 +
      (7 - ((daysBeforeYear y.toNat % 7 : Nat) : Int)) % 7 + 7 * (w - 1))) := by
  have hmono : daysBeforeYear y.toNat ≤ daysBeforeYear 9998 :=
    daysBeforeYear_mono _ _ (by omega)
  have hmax := maxDatetimeOrdinal_eq
  unfold strptimeYW
  rw [if_pos ⟨hy1, by omega, by omega, hw2⟩]
  dsimp only
  rw [if_neg (by omega : ¬ w = 0)]
  rw [if_pos]
  · congr 1
    ring
  · constructor
    · omega
    · omega

/-- The Weekly sort key of a parsed label, in closed form. -/
theorem get_weekly_eval (s : String) (y w : Int) (hp : parseWeeklyLabel s = some (y, w))
    (hy1 : 1000 ≤ y) (hy2 : y ≤ 9998) (hw1 : 1 ≤ w) (hw2 : w ≤ 53) :
    get_period_datetime s PeriodType.Weekly = 2 * ((daysBeforeYear y.toNat : Int) + 1 +
      (7 - ((daysBeforeYear y.toNat % 7 : Nat) : Int)) % 7 + 7 * (w - 1)) := by
  unfold get_period_datetime get_period_datetime_attempt attemptWeekly
  rw [hp, Option.some_bind]
  rw [strptimeYW_eval y w hy1 hy2 hw1 hw2]
  rfl

/-- The Monthly sort key of a parsed, in-bounds label. -/
theorem get_monthly_eval (s : String) (y m : Nat) (k : Int)
    (hp : parseMonthlyLabel s = some (y, m)) (ht : pdTimestampOf ⟨y, m, 1⟩ = some k) :
    get_period_datetime s PeriodType.Monthly = k := by
  unfold get_period_datetime get_period_datetime_attempt attemptMonthly
  rw [hp, Option.some_bind, ht]
  rfl

/-- The Daily sort key of a parsed, in-bounds label. -/
theorem get_daily_eval (s : String) (d : Date) (k : Int)
    (hp : parseDailyLabel s = some d) (ht : pdTimestampOf d = some k) :
    get_period_datetime s PeriodType.Daily = k := by
  unfold get_period_datetime get_period_datetime_attempt attemptDaily
  rw [hp, Option.some_bind, ht]
  rfl

/-- Counterexample to C9: the Weekly labels of 2020-12-28 (ISO (2020, 53)) and
2021-01-04 (ISO (2021, 1)) are strictly ordered by their encoded (year, week)
pairs — and by the underlying dates — yet get_period_datetime gives them equal
sort keys, because the label's ISO week number is fed to strptime's non-ISO
`%W` directive, whose week arithmetic rolls "Week 53 - 2020" over to
2021-01-04, the same day "Week 1 - 2021" parses to. -/
theorem C9_counterexample :
    convert_to_period (some ⟨2020, 12, 28⟩) PeriodType.Weekly = some "Week 53 - 2020" ∧
    convert_to_period (some ⟨2021, 1, 4⟩) PeriodType.Weekly = some "Week 1 - 2021" ∧
    isoParts ⟨2020, 12, 28⟩ = (2020, 53) ∧
    isoParts ⟨2021, 1, 4⟩ = (2021, 1) ∧
    ((2020 : Nat) < 2021 ∨ (2020 = 2021 ∧ (53 : Nat) < 1)) ∧
    get_period_datetime "Week 53 - 2020" PeriodType.Weekly =
      get_period_datetime "Week 1 - 2021" PeriodType.Weekly ∧
    ¬ get_period_datetime "Week 53 - 2020" PeriodType.Weekly <
        get_period_datetime "Week 1 - 2021" PeriodType.Weekly := by decide

/-- C9 (corrected): ordering well-formed period labels by get_period_datetime
is equivalent to ordering by the (year, sub-period) pair encoded in the label
for Monthly (in the pandas timestamp range) and Daily (calendar-valid, in
range) labels; for Weekly labels the equivalence only holds between labels of
the same encoded year (weeks 1..53, 4-digit years) — across year boundaries it
fails, see the counterexample. -/
theorem C9_comparator_order :
    (∀ (s1 s2 : String) (y w1 w2 : Int),
      parseWeeklyLabel s1 = some (y, w1) → parseWeeklyLabel s2 = some (y, w2) →
      1000 ≤ y → y ≤ 9998 → 1 ≤ w1 → w1 ≤ 53 → 1 ≤ w2 → w2 ≤ 53 →
      (get_period_datetime s1 PeriodType.Weekly < get_period_datetime s2 PeriodType.Weekly ↔
        w1 < w2)) ∧
    (∀ (s1 s2 : String) (y1 m1 y2 m2 : Nat) (k1 k2 : Int),
      parseMonthlyLabel s1 = some (y1, m1) → pdTimestampOf ⟨y1, m1, 1⟩ = some k1 →
      parseMonthlyLabel s2 = some (y2, m2) → pdTimestampOf ⟨y2, m2, 1⟩ = some k2 →
      (get_period_datetime s1 PeriodType.Monthly < get_period_datetime s2 PeriodType.Monthly ↔
        (y1 < y2 ∨ (y1 = y2 ∧ m1 < m2)))) ∧
    (∀ (s1 s2 : String) (d1 d2 : Date) (k1 k2 : Int),
      parseDailyLabel s1 = some d1 → pdTimestampOf d1 = some k1 →
      parseDailyLabel s2 = some d2 → pdTimestampOf d2 = some k2 →
      (get_period_datetime s1 PeriodType.Daily < get_period_datetime s2 PeriodType.Daily ↔
        (d1.year < d2.year ∨ (d1.year = d2.year ∧
          (d1.month < d2.month ∨ (d1.month = d2.month ∧ d1.day < d2.day)))))) := by
  refine ⟨?_, ?_, ?_⟩
  · intro s1 s2 y w1 w2 hp1 hp2 hy1 hy2 hw1 hw1' hw2 hw2'
    rw [get_weekly_eval s1 y w1 hp1 hy1 hy2 hw1 hw1',
      get_weekly_eval s2 y w2 hp2 hy1 hy2 hw2 hw2']
    omega
  · intro s1 s2 y1 m1 y2 m2 k1 k2 hp1 ht1 hp2 ht2
    rw [get_monthly_eval s1 y1 m1 k1 hp1 ht1, get_monthly_eval s2 y2 m2 k2 hp2 ht2]
    obtain ⟨hk1, hy1a, hy1b⟩ := pdTimestampOf_some _ _ ht1
    obtain ⟨hk2, hy2a, hy2b⟩ := pdTimestampOf_some _ _ ht2
    obtain ⟨hm1, hm1'⟩ := parseMonthlyLabel_range _ _ _ hp1
    obtain ⟨hm2, hm2'⟩ := parseMonthlyLabel_range _ _ _ hp2
    dsimp only at hy1a hy1b hy2a hy2b
    subst hk1
    subst hk2
    have hiff := toOrdinal_lt_iff_lex y1 m1 1 y2 m2 1 (by omega) (by omega)
      hm1 hm1' le_rfl (daysInMonth_pos y1 m1 hm1 hm1')
      hm2 hm2' le_rfl (daysInMonth_pos y2 m2 hm2 hm2')
    constructor
    · intro hlt
      have hord : toOrdinal ⟨y1, m1, 1⟩ < toOrdinal ⟨y2, m2, 1⟩ := by omega
      have hx := hiff.mp hord
      omega
    · intro hlex
      have hx := hiff.mpr (by omega)
      omega
  · intro s1 s2 d1 d2 k1 k2 hp1 ht1 hp2 ht2
    rw [get_daily_eval s1 d1 k1 hp1 ht1, get_daily_eval s2 d2 k2 hp2 ht2]
    obtain ⟨hk1, hy1a, hy1b⟩ := pdTimestampOf_some _ _ ht1
    obtain ⟨hk2, hy2a, hy2b⟩ := pdTimestampOf_some _ _ ht2
    obtain ⟨hm1, hm1', hd1, hd1'⟩ := parseDailyLabel_valid _ _ hp1
    obtain ⟨hm2, hm2', hd2, hd2'⟩ := parseDailyLabel_valid _ _ hp2
    subst hk1
    subst hk2
    obtain ⟨y1, m1, dd1⟩ := d1
    obtain ⟨y2, m2, dd2⟩ := d2
    dsimp only at *
    have hiff := toOrdinal_lt_iff_lex y1 m1 dd1 y2 m2 dd2 (by omega) (by omega)
      hm1 hm1' hd1 hd1' hm2 hm2' hd2 hd2'
    constructor
    · intro hlt
      have hord : toOrdinal ⟨y1, m1, dd1⟩ < toOrdinal ⟨y2, m2, dd2⟩ := by omega
      have hx := hiff.mp hord
      omega
    · intro hlex
      have hx := hiff.mpr (by omega)
      omega

/-- Witness for C9's amended statement at concrete labels of all three
granularities. -/
theorem C9_comparator_order_witness :
    (get_period_datetime "Week 1 - 2025" PeriodType.Weekly <
        get_period_datetime "Week 2 - 2025" PeriodType.Weekly ↔ (1 : Int) < 2) ∧
    (get_period_datetime "Jan 2025" PeriodType.Monthly <
        get_period_datetime "Feb 2025" PeriodType.Monthly ↔
      ((2025 : Nat) < 2025 ∨ (2025 = 2025 ∧ (1 : Nat) < 2))) ∧
    (get_period_datetime "2025-01-05" PeriodType.Daily <
        get_period_datetime "2025-01-06" PeriodType.Daily ↔
      ((2025 : Nat) < 2025 ∨ ((2025 : Nat) = 2025 ∧
        ((1 : Nat) < 1 ∨ ((1 : Nat) = 1 ∧ (5 : Nat) < 6))))) := by
  refine ⟨?_, ?_, ?_⟩
  · exact C9_comparator_order.1 "Week 1 - 2025" "Week 2 - 2025" 2025 1 2
      (by decide) (by decide) (by decide) (by decide) (by decide) (by decide)
      (by decide) (by decide)
  · exact C9_comparator_order.2.1 "Jan 2025" "Feb 2025" 2025 1 2025 2 1478504 1478566
      (by decide) (by decide) (by decide) (by decide)
  · exact C9_comparator_order.2.2 "2025-01-05" "2025-01-06"
      ⟨2025, 1, 5⟩ ⟨2025, 1, 6⟩ 1478512 1478514
      (by decide) (by decide) (by decide) (by decide)
